import Mathlib

/-!
# Verification of the correction-chain core (`pcwg/core/corrections.py`)

Shallow embedding of the correction chain abstraction: the `Source`/`Correction`
node hierarchy, the chain-validity rule (`can_chain`), the composite-name scheme
(`calculate_name`), the row-wise calculators, and the finalisation steps that
write wind-speed and power columns into a shared tabular dataset.

Modelling conventions:
* Python strings are Lean `String`s; `str.replace(" & ", ", ")` is embedded as
  `pyReplaceAmp` (left-to-right, non-overlapping scan, exactly Python's
  semantics for a fixed 3-character pattern), and `"&" in name` as
  `pyContainsAmp` (a one-character substring test is character membership).
* The pandas data frame is a list of rows; a row maps column names to reals.
  `DataFrame.addColumn` embeds `df[col] = df.apply(f, axis=1)`.
* Collaborators specified only at their interface (power curves, the deviation
  matrix, the status sink) are abstract structures carrying exactly the
  operations the core calls.  The status sink is modelled by returning the
  severity flags (`red`, `orange`) passed to `Status.add`.
* Floating-point values are modelled as reals (formulas) or rationals
  (comparisons and formatting); `float.__eq__`/`__gt__` become the exact
  comparisons on those fields.
* Python errors are explicit: `Except PyError`.  A constructor raising is an
  `Except.error`; no node state exists in that case (mirroring the fail-fast
  `raise` before any attribute assignment).
-/

/-- Python's `name.replace(" & ", ", ")` for the fixed pattern `" & "` and
replacement `", "` (corrections.py line 116): scan left to right; on a match
consume the 3 matched characters, emit `", "`, and continue after the match
(non-overlapping); otherwise move one character forward. -/
def pyReplaceAmp : List Char → List Char
  | [] => []
  | [c] => [c]
  | [c, d] => [c, d]
  | c :: d :: e :: rest =>
    if c = ' ' ∧ d = '&' ∧ e = ' ' then ',' :: ' ' :: pyReplaceAmp rest
    else c :: pyReplaceAmp (d :: e :: rest)

/-- Python's `"&" in name` (corrections.py line 115): a one-character substring
test is membership of that character. -/
def pyContainsAmp (name : String) : Bool :=
  name.data.any (fun c => c == '&')

/-- Decimal digits of the fraction `rem / den` (with `rem < den`), produced by
long division, stopping when the remainder vanishes; `fuel` bounds the number
of digits as Python float printing does. -/
def fracDigits : Nat → Nat → Nat → List Char
  | 0, _, _ => []
  | fuel + 1, rem, den =>
    let r10 := rem * 10
    let d := r10 / den
    let r2 := r10 % den
    Char.ofNat (48 + d) :: (if r2 = 0 then [] else fracDigits fuel r2 den)

/-- Python's `"{0}".format(x)` for a float `x`, modelled on rationals: sign,
integer part, a decimal point, and the fractional digits (at least one, so
`2.5 ↦ "2.5"`).  This agrees with Python's shortest-repr float printing on
every value with a short terminating decimal expansion, which covers all
exponents this development evaluates concretely. -/
def pyFloatStr (q : ℚ) : String :=
  let sign := if q < 0 then "-" else ""
  let n := q.num.natAbs
  let den := q.den
  let ip := n / den
  let rem := n % den
  let fracPart := if rem = 0 then "0" else String.mk (fracDigits 17 rem den)
  sign ++ toString ip ++ "." ++ fracPart

/-- `listHasPre pat s`: `s` starts with `pat`. -/
def listHasPre : List Char → List Char → Bool
  | [], _ => true
  | _ :: _, [] => false
  | p :: ps, c :: cs => p = c && listHasPre ps cs

/-- `listHasSub pat s`: `pat` occurs as a contiguous substring of `s`. -/
def listHasSub (pat : List Char) : List Char → Bool
  | [] => pat.isEmpty
  | c :: cs => listHasPre pat (c :: cs) || listHasSub pat cs

/-- Substring test on strings (Python's `in` operator for strings). -/
def strHasSub (pat s : String) : Bool :=
  listHasSub pat.data s.data

/-- An occurrence of the separator `" & "` at position `i` of `s`. -/
def sepAt (s : List Char) (i : Nat) : Prop :=
  s[i]? = some ' ' ∧ s[i + 1]? = some '&' ∧ s[i + 2]? = some ' '

/-- Join a list of labels with `", "` (the comma-separated form that
`calculate_name` produces for all but the last chained label). -/
def commaJoin : List String → String
  | [] => ""
  | [l] => l
  | l :: l2 :: ls => l ++ ", " ++ commaJoin (l2 :: ls)

/-- The composite-name shape after chaining `pre ++ [last]`: the single label
for a one-stage chain, otherwise all earlier labels comma-joined followed by
`" & "` and the final label. -/
def joinShape (pre : List String) (last : String) : String :=
  match pre with
  | [] => last
  | _ :: _ => commaJoin pre ++ " & " ++ last

/-- A row of the shared dataset: named numeric columns. -/
def Row : Type := String → ℝ

/-- The shared dataset: a row-indexed table, mutated by appending named
columns. -/
def DataFrame : Type := List Row

/-- `df[col] = df.apply(f, axis=1)`: every row gains the value `f row` under
the name `col` (computed from the row as it was before the assignment). -/
def DataFrame.addColumn (df : DataFrame) (col : String) (f : Row → ℝ) : DataFrame :=
  df.map (fun r => fun c => if c = col then f r else r c)

/-- The values of column `col`, row by row. -/
def DataFrame.column (df : DataFrame) (col : String) : List ℝ :=
  df.map (fun r => r col)

/-- External power-curve collaborator: `power(windSpeed)` (spec §6). -/
structure PowerCurve where
  power : ℝ → ℝ

/-- External turbulence-aware power-curve collaborator:
`power(windSpeed, turbulenceIntensity)` and `ratedPower` (spec §6). -/
structure TurbulencePowerCurve where
  power : ℝ → ℝ → ℝ
  ratedPower : ℝ

/-- The Python errors this core can raise: the chain-validity `Exception`
(corrections.py line 93), a `TypeError` from calling a function with a missing
required positional argument, and an `AttributeError` from reading an attribute
an object does not have. -/
inductive PyError where
  | exception (msg : String)
  | typeError (msg : String)
  | attributeError (name : String)
deriving DecidableEq

/-- A chain node after a completed constructor run.  `sourceNode c` is
`Source(c)` (lines 67-76): `source=None`, `wind_speed_column=c`, `raw=True`,
`wind_speed_based=True`, `power_based=False`.  `correctionNode src wsb name wsc`
is a `Correction` whose completed `__init__` stored back-reference `src`,
`wind_speed_based=wsb` (hence `power_based = not wsb`, `raw=False`),
`correction_name=name`, and — when the subclass is `WindSpeedBasedCorrection` —
`wind_speed_column=wsc` (line 135); `wsc = none` when the attribute was not
set. -/
inductive Node where
  | sourceNode (wind_speed_column : Option String) : Node
  | correctionNode (source : Node) (wind_speed_based : Bool)
      (correction_name : String) (wind_speed_column : Option String) : Node
deriving DecidableEq

/-- Attribute `raw`: `True` only for `Source` (lines 74, 101). -/
def Node.raw : Node → Bool
  | .sourceNode _ => true
  | .correctionNode _ _ _ _ => false

/-- Attribute `wind_speed_based` (lines 75, 95). -/
def Node.wind_speed_based : Node → Bool
  | .sourceNode _ => true
  | .correctionNode _ wsb _ _ => wsb

/-- Attribute `power_based` (lines 76, 96). -/
def Node.power_based : Node → Bool
  | .sourceNode _ => false
  | .correctionNode _ wsb _ _ => !wsb

/-- Attribute `correction_name`: set by `Correction.__init__` (line 98), never
set on `Source` — reading it there is an `AttributeError`, hence `Option`. -/
def Node.correction_name? : Node → Option String
  | .sourceNode _ => none
  | .correctionNode _ _ name _ => some name

/-- Attribute `wind_speed_column`.  On `Source` it is always set (line 72,
possibly to Python `None`); on corrections it is set only by
`WindSpeedBasedCorrection` (line 135).  The modelled claims never read a
`None`-valued column, so the Python `None` value and the missing attribute are
both `none` here. -/
def Node.wind_speed_column? : Node → Option String
  | .sourceNode c => c
  | .correctionNode _ _ _ wsc => wsc

/-- `Correction.can_chain` (lines 122-124): the parent must be
wind-speed-based. -/
def can_chain (source : Node) : Bool :=
  source.wind_speed_based

/-- `Correction.calculate_name` (lines 105-120): the raw `Source` parent
contributes nothing; otherwise the parent's composite name has its `" & "`
separators replaced by `", "` (guarded by `"&" in name`) and the new label is
appended after `" & "`.  The match on the constructor is the `source.raw`
test: `raw` is `True` exactly on `Source`. -/
def calculate_name (source : Node) (correction_name : String) : String :=
  match source with
  | .sourceNode _ => correction_name
  | .correctionNode _ _ parent_name _ =>
    let name := if pyContainsAmp parent_name
      then String.mk (pyReplaceAmp parent_name.data) else parent_name
    name ++ " & " ++ correction_name

/-- `Correction.__init__` (lines 88-103): fail fast when `can_chain` rejects
the parent — the raised message interpolates the new label and
`source.correction_name` (an `AttributeError` if the parent lacks that
attribute); otherwise store `wind_speed_based`, `power_based = not wsb`,
`correction_name = calculate_name(...)`, the back-reference and `raw = False`.
The `Status.add` diagnostic is out of scope (spec §2). -/
def correction_init (correction_name : String) (source : Node)
    (wind_speed_based : Bool) : Except PyError Node :=
  if can_chain source then
    Except.ok (Node.correctionNode source wind_speed_based
      (calculate_name source correction_name) none)
  else
    match source.correction_name? with
    | some parent_name =>
      Except.error (PyError.exception
        (correction_name ++ " cannot follow " ++ parent_name))
    | none => Except.error (PyError.attributeError "correction_name")

/-- `WindSpeedBasedCorrection.__init__` (lines 126-135): the base constructor,
then `wind_speed_column = "<composite_name> Wind Speed"`.  The base constructor
only returns `correctionNode` values on success, so the final catch-all arm is
unreachable. -/
def windSpeedBasedCorrection_init (correction_name : String) (source : Node) :
    Except PyError Node :=
  match correction_init correction_name source true with
  | Except.error e => Except.error e
  | Except.ok (Node.correctionNode src wsb name _) =>
    Except.ok (Node.correctionNode src wsb name (some (name ++ " Wind Speed")))
  | Except.ok n => Except.ok n

/-- One positional argument slot of a Python call: either a value was supplied
or the argument is missing. -/
inductive Arg (α : Type) where
  | provided (value : α)
  | missing

/-- `PowerBasedCorrection.__init__` (lines 147-157) under Python's call
binding: its three parameters after `self` (`correction_name`, `source`,
`power_curve`) have no defaults, so a call that leaves any of them missing
raises `TypeError` before the body runs.  On success: the base constructor
with `wind_speed_based=False`, then
`power_column = "<calculate_name(source, name)> Power"` and the stored
`power_curve`.  The curve type is a parameter because subclasses pass
different collaborator kinds. -/
def powerBasedCorrection_init {κ : Type} (correction_name : Arg String)
    (source : Arg Node) (power_curve : Arg κ) :
    Except PyError (Node × String × κ) :=
  match correction_name, source, power_curve with
  | Arg.provided name, Arg.provided src, Arg.provided pc =>
    (match correction_init name src false with
     | Except.error e => Except.error e
     | Except.ok n =>
       Except.ok (n, calculate_name src name ++ " Power", pc))
  | _, _, _ =>
    Except.error (PyError.typeError
      "__init__ missing required positional argument")

/-- `PowerCalculator` (lines 9-17): power from the wind-speed column via the
power curve. -/
structure PowerCalculator where
  powerCurve : PowerCurve
  windSpeedColumn : String

/-- `PowerCalculator.power(row)` (lines 16-17). -/
def PowerCalculator.power (c : PowerCalculator) (row : Row) : ℝ :=
  c.powerCurve.power (row c.windSpeedColumn)

/-- `Source.finalise` (lines 78-86): with a power curve, add the column
`"<wind_speed_column> Power"` computed row-wise by `PowerCalculator`, and set
`power_column` to that name; with `None`, set `power_column = None` and leave
the data frame untouched.  Returns the new frame and the `power_column`
attribute. -/
def source_finalise (wind_speed_column : String) (df : DataFrame)
    (power_curve : Option PowerCurve) : DataFrame × Option String :=
  match power_curve with
  | some curve =>
    let power_column := wind_speed_column ++ " Power"
    (df.addColumn power_column
      (PowerCalculator.power ⟨curve, wind_speed_column⟩), some power_column)
  | none => (df, none)

/-- `WindSpeedBasedCorrection.finalise` (lines 137-145): same contract as
`Source.finalise`, but the power column is `"<composite_name> Power"` and the
calculator reads this correction's own `wind_speed_column`. -/
def windSpeedBasedCorrection_finalise (correction_name : String)
    (wind_speed_column : String) (df : DataFrame)
    (power_curve : Option PowerCurve) : DataFrame × Option String :=
  match power_curve with
  | some curve =>
    let power_column := correction_name ++ " Power"
    (df.addColumn power_column
      (PowerCalculator.power ⟨curve, wind_speed_column⟩), some power_column)
  | none => (df, none)

/-- `PowerBasedCorrection.finalise` (lines 159-163): write `power_column` by
applying an arbitrary row-wise calculator (any `power(row)` operation) to every
row. -/
def powerBasedCorrection_finalise (power_column : String) (df : DataFrame)
    (calculatorPower : Row → ℝ) : DataFrame :=
  df.addColumn power_column calculatorPower

/-- `DensityCorrectionCalculator` (lines 19-29): reference density and the two
input columns. -/
structure DensityCorrectionCalculator where
  referenceDensity : ℝ
  windSpeedColumn : String
  densityColumn : String

/-- `DensityCorrectionCalculator.densityCorrectedHubWindSpeed(row)`
(lines 27-29): `speed * (density / referenceDensity) ** (1.0 / 3.0)`. -/
noncomputable def DensityCorrectionCalculator.densityCorrectedHubWindSpeed
    (c : DensityCorrectionCalculator) (row : Row) : ℝ :=
  row c.windSpeedColumn * (row c.densityColumn / c.referenceDensity) ^ ((1 : ℝ) / 3)

/-- `DensityEquivalentWindSpeed.__init__` (lines 165-179): the
`WindSpeedBasedCorrection` base constructor with label `"Density"`, then the
new wind-speed column computed row-wise by `DensityCorrectionCalculator` from
the parent's wind-speed column and the hub-density column, then the shared
finalise step (optional power column).  Returns the node, the mutated frame and
the `power_column` attribute.  The second `.ok` arm is unreachable: the base
constructor always returns a `correctionNode` with the wind-speed column set. -/
noncomputable def densityEquivalentWindSpeed_init (df : DataFrame) (source : Node)
    (reference_density : ℝ) (hub_density_column : String)
    (power_curve : Option PowerCurve) :
    Except PyError (Node × DataFrame × Option String) :=
  match windSpeedBasedCorrection_init "Density" source with
  | Except.error e => Except.error e
  | Except.ok (Node.correctionNode src wsb name (some new_wsc)) =>
    (match source.wind_speed_column? with
     | some src_wsc =>
       let calculator : DensityCorrectionCalculator :=
         ⟨reference_density, src_wsc, hub_density_column⟩
       let df1 := df.addColumn new_wsc calculator.densityCorrectedHubWindSpeed
       let fin := windSpeedBasedCorrection_finalise name new_wsc df1 power_curve
       Except.ok (Node.correctionNode src wsb name (some new_wsc), fin.1, fin.2)
     | none => Except.error (PyError.attributeError "wind_speed_column"))
  | Except.ok n => Except.ok (n, df, none)

/-- `TurbulencePowerCalculator` (lines 32-42): the turbulence-aware curve, the
rated power passed in at construction, and the two input columns. -/
structure TurbulencePowerCalculator where
  powerCurve : TurbulencePowerCurve
  ratedPower : ℝ
  windSpeedColumn : String
  turbulenceColumn : String

/-- `TurbulencePowerCalculator.power(row)` (lines 41-42):
`powerCurve.power(row[windSpeedColumn], row[turbulenceColumn])`. -/
def TurbulencePowerCalculator.power (c : TurbulencePowerCalculator) (row : Row) : ℝ :=
  c.powerCurve.power (row c.windSpeedColumn) (row c.turbulenceColumn)

/-- `TurbulenceCorrection.__init__` (lines 231-239): the `PowerBasedCorrection`
base constructor with label `"Turbulence"` (all three arguments provided), then
a `TurbulencePowerCalculator` built from the stored curve, its `ratedPower`,
the parent's wind-speed column and the turbulence-intensity column, then the
power-based finalise.  Reading `source.wind_speed_column` on a node without
that attribute is an `AttributeError`. -/
def turbulenceCorrection_init (df : DataFrame) (source : Node)
    (hub_turbulence_column : String) (power_curve : TurbulencePowerCurve) :
    Except PyError (Node × DataFrame) :=
  match @powerBasedCorrection_init TurbulencePowerCurve
      (Arg.provided "Turbulence") (Arg.provided source) (Arg.provided power_curve) with
  | Except.error e => Except.error e
  | Except.ok (n, power_column, pc) =>
    match source.wind_speed_column? with
    | some wsc =>
      let calculator : TurbulencePowerCalculator :=
        ⟨pc, pc.ratedPower, wsc, hub_turbulence_column⟩
      Except.ok (n, powerBasedCorrection_finalise power_column df calculator.power)
    | none => Except.error (PyError.attributeError "wind_speed_column")

/-- `RotorEquivalentWindSpeed.__init__`, exponent branch (lines 193-198):
`3.0 ↦ "REWS"`, `2.0 ↦ "RAWS"`, otherwise `"REWS-Exponent=" + str(exponent)`.
The exponent is a float; modelled as an exact rational. -/
def rews_exponent_type (rewsExponent : ℚ) : String :=
  if rewsExponent = 3 then "REWS"
  else if rewsExponent = 2 then "RAWS"
  else "REWS-Exponent=" ++ pyFloatStr rewsExponent

/-- `RotorEquivalentWindSpeed.__init__`, flags branch (lines 200-206):
`"Speed"`, then `"+Veer"` when the veer flag is set, then `"+Upflow"` when the
upflow flag is set. -/
def rews_type_string (rewsVeer rewsUpflow : Bool) : String :=
  "Speed" ++ (if rewsVeer then "+Veer" else "")
    ++ (if rewsUpflow then "+Upflow" else "")

/-- The `RotorEquivalentWindSpeed` correction label
`"{exponent_type} ({rews_type})"` (line 208). -/
def rews_label (rewsExponent : ℚ) (rewsVeer rewsUpflow : Bool) : String :=
  rews_exponent_type rewsExponent ++ " (" ++ rews_type_string rewsVeer rewsUpflow ++ ")"

/-- The `red`/`orange` severity flags passed to one `Status.add` call. -/
structure StatusFlags where
  red : Bool
  orange : Bool
deriving DecidableEq

/-- The diagnostic reporting of `PowerDeviationMatrixCorrection.__init__`
(lines 255-273), given the matrix's overall out-of-range fraction and the
per-dimension out-of-range fractions: `orange = fraction > 0.05` and
`red = fraction > 0.20` are computed once from the overall fraction
(lines 257-258), and every per-dimension `Status.add` call reuses those same
two flags (lines 262-273).  Returns the overall report's flags and the flags
of each per-dimension report. -/
def pdm_reports (overall_fraction : ℚ) (dimension_fractions : List ℚ) :
    StatusFlags × List StatusFlags :=
  let orange := decide (overall_fraction > mkRat 5 100)
  let red := decide (overall_fraction > mkRat 20 100)
  (⟨red, orange⟩, dimension_fractions.map (fun _ => ⟨red, orange⟩))

/-- Modelled from the spec (§4.8, for the refinement comparison only): the
claimed per-dimension severity classification, applying the thresholds to the
dimension's own out-of-range fraction: `fraction > 0.20 → critical (red)`,
`fraction > 0.05 → warning (orange)`. -/
def spec_dimension_flags (dim_fraction : ℚ) : StatusFlags :=
  ⟨decide (dim_fraction > mkRat 20 100), decide (dim_fraction > mkRat 5 100)⟩

/-- `WebServiceCorrection.__init__` (lines 291-297):
`PowerBasedCorrection.__init__(self, "WebService", Source(None))` — the
`power_curve` argument is left missing — then `finalise(data_frame,
web_service)` applying the external calculator's `power(row)` row-wise. -/
def webServiceCorrection_init (df : DataFrame) (web_service : Row → ℝ) :
    Except PyError (Node × DataFrame) :=
  match @powerBasedCorrection_init Unit (Arg.provided "WebService")
      (Arg.provided (Node.sourceNode none)) Arg.missing with
  | Except.error e => Except.error e
  | Except.ok (n, power_column, _) =>
    Except.ok (n, powerBasedCorrection_finalise power_column df web_service)

/-- Repeatedly extend a chain with wind-speed-based corrections carrying the
given labels (every non-final stage of any real chain is wind-speed-based,
since `can_chain` requires it; the final stage's flag does not affect
naming). -/
def buildChain (source : Node) : List String → Except PyError Node
  | [] => Except.ok source
  | l :: ls =>
    match windSpeedBasedCorrection_init l source with
    | Except.error e => Except.error e
    | Except.ok n => buildChain n ls

theorem strData_append (a b : String) : (a ++ b).data = a.data ++ b.data := by
  cases a
  cases b
  rfl

theorem pyContainsAmp_iff (s : String) : pyContainsAmp s = true ↔ '&' ∈ s.data := by
  simp [pyContainsAmp, List.any_eq_true, beq_iff_eq]

theorem pyContainsAmp_eq_false (s : String) (h : '&' ∉ s.data) : pyContainsAmp s = false := by
  rw [← Bool.not_eq_true, pyContainsAmp_iff]
  exact h

theorem replaceAmp_of_no_amp : ∀ (s : List Char), '&' ∉ s → pyReplaceAmp s = s := by
  intro s
  induction s using pyReplaceAmp.induct with
  | case1 => intro _; rfl
  | case2 c => intro _; rfl
  | case3 c d => intro _; rfl
  | case4 c d e rest hmatch ih =>
    intro h
    obtain ⟨-, hd, -⟩ := hmatch
    subst hd
    simp at h
  | case5 c d e rest hmatch ih =>
    intro h
    rw [pyReplaceAmp, if_neg hmatch]
    rw [ih (by simp at h ⊢; tauto)]

theorem replaceAmp_mid : ∀ (a c : List Char), '&' ∉ a → '&' ∉ c →
    pyReplaceAmp (a ++ ' ' :: '&' :: ' ' :: c) = a ++ ',' :: ' ' :: c := by
  intro a
  induction a with
  | nil =>
    intro c _ hc
    rw [List.nil_append, pyReplaceAmp, if_pos ⟨rfl, rfl, rfl⟩, replaceAmp_of_no_amp c hc]
    rfl
  | cons x a ih =>
    intro c hxa hc
    have hx : x ≠ '&' := by simp at hxa; tauto
    have ha : '&' ∉ a := by simp at hxa; tauto
    cases a with
    | nil =>
      rw [List.cons_append, List.nil_append, pyReplaceAmp,
        if_neg (by rintro ⟨-, h, -⟩; exact absurd h (by decide))]
      rw [show (' ' :: '&' :: ' ' :: c) = ([] ++ ' ' :: '&' :: ' ' :: c) from rfl,
        ih c ha hc]
      rfl
    | cons w a2 =>
      have hw : w ≠ '&' := by simp at ha; tauto
      cases a2 with
      | nil =>
        rw [List.cons_append, List.cons_append, List.nil_append, pyReplaceAmp,
          if_neg (by rintro ⟨-, h, -⟩; exact absurd h hw)]
        rw [show (w :: ' ' :: '&' :: ' ' :: c) = ([w] ++ ' ' :: '&' :: ' ' :: c) from rfl,
          ih c ha hc]
        rfl
      | cons v a3 =>
        rw [List.cons_append, List.cons_append, List.cons_append, pyReplaceAmp,
          if_neg (by rintro ⟨-, h, -⟩; exact absurd h hw)]
        rw [show (w :: v :: (a3 ++ ' ' :: '&' :: ' ' :: c)) = ((w :: v :: a3) ++ ' ' :: '&' :: ' ' :: c) from rfl,
          ih c ha hc]
        rfl

theorem hasPre_append_self : ∀ (p t : List Char), listHasPre p (p ++ t) = true := by
  intro p
  induction p with
  | nil => intro t; rfl
  | cons c cs ih => intro t; simp [listHasPre, ih]

theorem hasSub_of_pre : ∀ (p s : List Char), listHasPre p s = true → listHasSub p s = true := by
  intro p s h
  cases s with
  | nil =>
    cases p with
    | nil => rfl
    | cons c cs => exact absurd h (by simp [listHasPre])
  | cons c cs => simp [listHasSub, h]

theorem hasSub_cons (p s : List Char) (c : Char) (h : listHasSub p s = true) :
    listHasSub p (c :: s) = true := by
  simp [listHasSub, h]

theorem hasSub_append_left : ∀ (a p s : List Char), listHasSub p s = true →
    listHasSub p (a ++ s) = true := by
  intro a
  induction a with
  | nil => intro p s h; simpa using h
  | cons c cs ih => intro p s h; exact hasSub_cons p (cs ++ s) c (ih p s h)

theorem hasSub_mid (a p b : List Char) : listHasSub p (a ++ p ++ b) = true := by
  rw [List.append_assoc]
  exact hasSub_append_left a p (p ++ b) (hasSub_of_pre p (p ++ b) (hasPre_append_self p b))

theorem amp_unique (a c : List Char) (ha : '&' ∉ a) (hc : '&' ∉ c) :
    ∀ m, (a ++ ' ' :: '&' :: ' ' :: c)[m]? = some '&' → m = a.length + 1 := by
  intro m h
  by_cases hm : m < a.length
  · rw [List.getElem?_append, if_pos hm] at h
    have : '&' ∈ a := by
      have := List.getElem?_eq_some.mp h
      obtain ⟨hlt, heq⟩ := this
      exact heq ▸ List.getElem_mem hlt
    exact absurd this ha
  · push_neg at hm
    obtain ⟨k, rfl⟩ := Nat.exists_eq_add_of_le hm
    rw [List.getElem?_append, if_neg (by omega)] at h
    simp only [Nat.add_sub_cancel_left] at h
    match k with
    | 0 => simp at h
    | 1 => rfl
    | 2 => simp at h
    | k + 3 =>
      simp only [List.getElem?_cons_succ] at h
      have : '&' ∈ c := by
        have := List.getElem?_eq_some.mp h
        obtain ⟨hlt, heq⟩ := this
        exact heq ▸ List.getElem_mem hlt
      exact absurd this hc

theorem strMk_data (s : String) : String.mk s.data = s := by
  cases s
  rfl

theorem commaJoin_no_amp : ∀ (pre : List String), (∀ p ∈ pre, '&' ∉ p.data) →
    '&' ∉ (commaJoin pre).data := by
  intro pre
  induction pre with
  | nil => intro _; simp [commaJoin]
  | cons p ps ih =>
    intro h
    cases ps with
    | nil => exact h p (by simp)
    | cons q qs =>
      rw [commaJoin, strData_append, strData_append]
      intro hmem
      rcases List.mem_append.mp hmem with h12 | h3
      · rcases List.mem_append.mp h12 with h1 | h2
        · exact h p (by simp) h1
        · exact absurd h2 (by decide)
      · exact ih (fun x hx => h x (List.mem_cons_of_mem p hx)) h3

theorem commaJoin_snoc : ∀ (pre : List String), pre ≠ [] → ∀ (x : String),
    commaJoin (pre ++ [x]) = commaJoin pre ++ ", " ++ x := by
  intro pre
  induction pre with
  | nil => intro h; exact absurd rfl h
  | cons p ps ih =>
    intro _ x
    cases ps with
    | nil => rfl
    | cons q qs =>
      show p ++ ", " ++ commaJoin (q :: qs ++ [x]) = (p ++ ", " ++ commaJoin (q :: qs)) ++ ", " ++ x
      rw [ih (by simp) x]
      simp [String.append_assoc]

theorem calcname_step (s : Node) (wsb : Bool) (wsc : Option String) (pre : List String)
    (last l : String) (hlast : '&' ∉ last.data) (hpre : ∀ p ∈ pre, '&' ∉ p.data) :
    calculate_name (Node.correctionNode s wsb (joinShape pre last) wsc) l
      = joinShape (pre ++ [last]) l := by
  cases pre with
  | nil =>
    show (if pyContainsAmp last = true then String.mk (pyReplaceAmp last.data) else last)
        ++ " & " ++ l = joinShape [last] l
    rw [if_neg (by rw [pyContainsAmp_eq_false last hlast]; simp)]
    rfl
  | cons p ps =>
    have hA : '&' ∉ (commaJoin (p :: ps)).data := commaJoin_no_amp (p :: ps) hpre
    have hdata : (joinShape (p :: ps) last).data
        = (commaJoin (p :: ps)).data ++ ' ' :: '&' :: ' ' :: last.data := by
      show (commaJoin (p :: ps) ++ " & " ++ last).data = _
      rw [String.append_assoc, strData_append, strData_append]
      rfl
    have hcontains : pyContainsAmp (joinShape (p :: ps) last) = true := by
      rw [pyContainsAmp_iff, hdata]
      simp
    show (if pyContainsAmp (joinShape (p :: ps) last) = true
          then String.mk (pyReplaceAmp (joinShape (p :: ps) last).data)
          else joinShape (p :: ps) last) ++ " & " ++ l = joinShape ((p :: ps) ++ [last]) l
    rw [if_pos hcontains, hdata, replaceAmp_mid _ _ hA hlast]
    have hmk : String.mk ((commaJoin (p :: ps)).data ++ ',' :: ' ' :: last.data)
        = commaJoin (p :: ps) ++ ", " ++ last := by
      have : (commaJoin (p :: ps) ++ ", " ++ last).data
          = (commaJoin (p :: ps)).data ++ ',' :: ' ' :: last.data := by
        rw [String.append_assoc, strData_append, strData_append]
        rfl
      rw [← this, strMk_data]
    rw [hmk]
    show (commaJoin (p :: ps) ++ ", " ++ last) ++ " & " ++ l
        = commaJoin ((p :: ps) ++ [last]) ++ " & " ++ l
    rw [commaJoin_snoc (p :: ps) (by simp) last]

theorem buildChain_shape : ∀ (ls : List String) (pre : List String) (last : String)
    (s : Node) (wsc : Option String),
    '&' ∉ last.data → (∀ p ∈ pre, '&' ∉ p.data) → (∀ l ∈ ls, '&' ∉ l.data) →
    ∃ n : Node,
      buildChain (Node.correctionNode s true (joinShape pre last) wsc) ls = Except.ok n ∧
      ∃ pre2 last2, n.correction_name? = some (joinShape pre2 last2) ∧
        pre2 ++ [last2] = pre ++ last :: ls ∧
        '&' ∉ last2.data ∧ (∀ p ∈ pre2, '&' ∉ p.data) := by
  intro ls
  induction ls with
  | nil =>
    intro pre last s wsc hlast hpre _
    exact ⟨_, rfl, pre, last, rfl, by simp, hlast, hpre⟩
  | cons l ls ih =>
    intro pre last s wsc hlast hpre hls
    have hstep := calcname_step s true wsc pre last l hlast hpre
    have hl : '&' ∉ l.data := hls l (by simp)
    have hpre2 : ∀ p ∈ pre ++ [last], '&' ∉ p.data := by
      intro p hp
      rcases List.mem_append.mp hp with h | h
      · exact hpre p h
      · simp at h
        subst h
        exact hlast
    obtain ⟨n, hbc, pre2, last2, hname, heq, h1, h2⟩ :=
      ih (pre ++ [last]) l (Node.correctionNode s true (joinShape pre last) wsc)
        (some (calculate_name (Node.correctionNode s true (joinShape pre last) wsc) l
          ++ " Wind Speed")) hl hpre2
        (fun x hx => hls x (List.mem_cons_of_mem l hx))
    rw [hstep] at hbc
    refine ⟨n, ?_, pre2, last2, hname, ?_, h1, h2⟩
    · simp only [buildChain, windSpeedBasedCorrection_init, correction_init, can_chain,
        Node.wind_speed_based, if_true, hstep]
      exact hbc
    · rw [heq]
      simp

theorem joinShape_sep_unique (pre : List String) (last : String)
    (hlast : '&' ∉ last.data) (hpre : ∀ p ∈ pre, '&' ∉ p.data) :
    ∀ i j, sepAt (joinShape pre last).data i → sepAt (joinShape pre last).data j →
      i = j := by
  cases pre with
  | nil =>
    intro i j hi _
    exfalso
    obtain ⟨hlt, heq⟩ := List.getElem?_eq_some.mp hi.2.1
    exact hlast (heq ▸ List.getElem_mem hlt)
  | cons p ps =>
    have hdata : (joinShape (p :: ps) last).data
        = (commaJoin (p :: ps)).data ++ ' ' :: '&' :: ' ' :: last.data := by
      show (commaJoin (p :: ps) ++ " & " ++ last).data = _
      rw [String.append_assoc, strData_append, strData_append]
      rfl
    intro i j hi hj
    have h1 := amp_unique _ _ (commaJoin_no_amp (p :: ps) hpre) hlast (i + 1)
      (hdata ▸ hi.2.1)
    have h2 := amp_unique _ _ (commaJoin_no_amp (p :: ps) hpre) hlast (j + 1)
      (hdata ▸ hj.2.1)
    omega

theorem strHasSub_pre_append (pat t : String) : strHasSub pat (pat ++ t) = true := by
  rw [strHasSub, strData_append]
  exact hasSub_of_pre _ _ (hasPre_append_self _ _)

theorem strHasSub_append_end (a pat : String) : strHasSub pat (a ++ pat) = true := by
  rw [strHasSub, strData_append]
  have h := hasSub_mid a.data pat.data []
  simpa using h

theorem strHasSub_mid (a pat b : String) : strHasSub pat (a ++ pat ++ b) = true := by
  rw [strHasSub, strData_append, strData_append]
  exact hasSub_mid a.data pat.data b.data

theorem addColumn_column (df : DataFrame) (col : String) (f : Row → ℝ) :
    (df.addColumn col f).column col = df.map f := by
  simp [DataFrame.addColumn, DataFrame.column, List.map_map]

/-- C1: for every correction built with label `L` on parent `P`, construction
succeeds if and only if `P.wind_speed_based` is true; when it is false, the
constructor raises an `Exception` whose message interpolates both `L` and the
parent's existing composite `correction_name`, and no node state is
established (the result is an error, not a node). -/
theorem correction_chain_validity (L : String) (P : Node) (wsb : Bool) :
    ((∃ n, correction_init L P wsb = Except.ok n) ↔ P.wind_speed_based = true) ∧
    (P.wind_speed_based = false →
      ∃ pn, P.correction_name? = some pn ∧
        correction_init L P wsb
          = Except.error (PyError.exception (L ++ " cannot follow " ++ pn)) ∧
        strHasSub L (L ++ " cannot follow " ++ pn) = true ∧
        strHasSub pn (L ++ " cannot follow " ++ pn) = true) := by
  cases P with
  | sourceNode c =>
    refine ⟨⟨fun _ => rfl, fun _ => ⟨_, rfl⟩⟩, fun h => absurd h ?_⟩
    simp [Node.wind_speed_based]
  | correctionNode s w pn wsc =>
    cases w with
    | true =>
      refine ⟨⟨fun _ => rfl, fun _ => ⟨_, rfl⟩⟩, fun h => absurd h ?_⟩
      simp [Node.wind_speed_based]
    | false =>
      refine ⟨⟨fun hex => ?_, fun htrue => absurd htrue ?_⟩,
        fun _ => ⟨pn, rfl, rfl, ?_, ?_⟩⟩
      · obtain ⟨n, hn⟩ := hex
        rw [show correction_init L (Node.correctionNode s false pn wsc) wsb
            = Except.error (PyError.exception (L ++ " cannot follow " ++ pn)) from rfl] at hn
        exact Except.noConfusion hn
      · simp [Node.wind_speed_based]
      · rw [String.append_assoc]
        exact strHasSub_pre_append L (" cannot follow " ++ pn)
      · exact strHasSub_append_end (L ++ " cannot follow ") pn

theorem correction_chain_validity_witness :
    correction_init "2D Power Deviation Matrix"
      (Node.correctionNode (Node.sourceNode (some "WS")) false "Turbulence" none) false
      = Except.error
          (PyError.exception "2D Power Deviation Matrix cannot follow Turbulence") := by
  obtain ⟨pn, hpn, herr, -, -⟩ :=
    (correction_chain_validity "2D Power Deviation Matrix"
      (Node.correctionNode (Node.sourceNode (some "WS")) false "Turbulence" none) false).2 rfl
  have hpn2 : pn = "Turbulence" :=
    (by simpa [Node.correction_name?] using hpn : "Turbulence" = pn).symm
  subst hpn2
  exact herr

/-- C2: `calculate_name(P, L)` returns exactly `L` when `P` is the raw
`Source`; otherwise it returns `P`'s composite name with every literal `" & "`
separator replaced by `", "` (Python's `str.replace` replaces all occurrences,
and the `"&" in name` guard makes no difference because the replacement is the
identity on `"&"`-free names), followed by `" & "` and `L`.  In particular the
chain Source → Density → Turbulence yields `"Density & Turbulence"`, and a
subsequent PowerDeviationMatrix stage yields
`"Density, Turbulence & PowerDeviationMatrix"`. -/
theorem calculate_name_spec (P : Node) (L : String) :
    (P.raw = true → calculate_name P L = L) ∧
    (P.raw = false → ∃ pn, P.correction_name? = some pn ∧
      calculate_name P L = String.mk (pyReplaceAmp pn.data) ++ " & " ++ L) ∧
    calculate_name (Node.correctionNode (Node.sourceNode (some "WS")) true "Density"
      (some "Density Wind Speed")) "Turbulence" = "Density & Turbulence" ∧
    calculate_name (Node.correctionNode
      (Node.correctionNode (Node.sourceNode (some "WS")) true "Density" none)
      true "Density & Turbulence" none) "PowerDeviationMatrix"
      = "Density, Turbulence & PowerDeviationMatrix" := by
  refine ⟨?_, ?_, by decide, by decide⟩
  · intro h
    cases P with
    | sourceNode c => rfl
    | correctionNode s w pn wsc => simp [Node.raw] at h
  · intro h
    cases P with
    | sourceNode c => simp [Node.raw] at h
    | correctionNode s w pn wsc =>
      refine ⟨pn, rfl, ?_⟩
      show (if pyContainsAmp pn = true then String.mk (pyReplaceAmp pn.data) else pn)
          ++ " & " ++ L = _
      by_cases hamp : pyContainsAmp pn = true
      · rw [if_pos hamp]
      · rw [if_neg hamp]
        have hnm : '&' ∉ pn.data := fun hm => hamp ((pyContainsAmp_iff pn).mpr hm)
        rw [replaceAmp_of_no_amp pn.data hnm, strMk_data]

theorem calculate_name_spec_witness :
    calculate_name (Node.sourceNode (some "WS")) "Density" = "Density" :=
  (calculate_name_spec (Node.sourceNode (some "WS")) "Density").1 rfl

/-- C3: for chains of every length built from the raw source, the composite
name contains at most one `" & "` separator — positions of `" & "` occurrences
are unique — with the final label `&`-joined and all earlier stage labels
comma-separated (`joinShape`).  Holds because Python's `str.replace` rewrites
every `" & "` occurrence (not only the first), and stage labels (none of which
contain `"&"`) keep the invariant that exactly one separator is ever
present. -/
theorem composite_name_single_separator (labels : List String) (h : labels ≠ [])
    (hf : ∀ l ∈ labels, '&' ∉ l.data) :
    ∃ n, buildChain (Node.sourceNode (some "WS")) labels = Except.ok n ∧
      ∃ pre last, labels = pre ++ [last] ∧
        n.correction_name? = some (joinShape pre last) ∧
        ∀ i j, sepAt (joinShape pre last).data i →
          sepAt (joinShape pre last).data j → i = j := by
  cases labels with
  | nil => exact absurd rfl h
  | cons l ls =>
    have hl : '&' ∉ l.data := hf l (by simp)
    obtain ⟨n, hbc, pre2, last2, hname, heq, h1, h2⟩ :=
      buildChain_shape ls [] l (Node.sourceNode (some "WS")) (some (l ++ " Wind Speed")) hl
        (by intro p hp; simp at hp) (fun x hx => hf x (List.mem_cons_of_mem l hx))
    refine ⟨n, ?_, pre2, last2, ?_, hname, joinShape_sep_unique pre2 last2 h1 h2⟩
    · simp only [buildChain, windSpeedBasedCorrection_init, correction_init, can_chain,
        Node.wind_speed_based, if_true]
      exact hbc
    · simp only [List.nil_append] at heq
      exact heq.symm

theorem composite_name_single_separator_witness :
    ∃ n, buildChain (Node.sourceNode (some "WS"))
        ["Density", "Turbulence", "PowerDeviationMatrix"] = Except.ok n ∧
      ∃ pre last, ["Density", "Turbulence", "PowerDeviationMatrix"] = pre ++ [last] ∧
        n.correction_name? = some (joinShape pre last) ∧
        ∀ i j, sepAt (joinShape pre last).data i →
          sepAt (joinShape pre last).data j → i = j :=
  composite_name_single_separator ["Density", "Turbulence", "PowerDeviationMatrix"]
    (by decide) (by decide)

/-- C4 (counterexample): with an overall out-of-range fraction of 0.5 and a
single dimension whose own fraction is 0.01, the per-dimension report is
flagged `red`/`orange` (inherited from the overall fraction) although the
spec's thresholds applied to the dimension's own fraction would make it
informational — so per-dimension severity is NOT classified from that
dimension's own fraction. -/
theorem pdm_dimension_severity_counterexample :
    ¬ ((pdm_reports (mkRat 1 2) [mkRat 1 100]).2
        = [spec_dimension_flags (mkRat 1 100)]) := by decide

/-- C4 (amended): the overall report's severity flags do follow the claimed
thresholds (`> 0.20 → red/critical`, `> 0.05 → orange/warning`), but every
per-dimension report reuses exactly the overall report's flags — the
thresholds are applied once, to the overall fraction, never to a dimension's
own fraction. -/
theorem pdm_reports_reuse_overall_flags (overall : ℚ) (dims : List ℚ) :
    (pdm_reports overall dims).1 = spec_dimension_flags overall ∧
    (pdm_reports overall dims).2
      = dims.map (fun _ => spec_dimension_flags overall) :=
  ⟨rfl, rfl⟩

/-- C5: constructing a `WebServiceCorrection` never succeeds: the
`PowerBasedCorrection.__init__` call at corrections.py line 295 supplies only
`correction_name` and `source`, leaving the required positional parameter
`power_curve` (line 149) missing, so Python raises `TypeError` before any
body code runs — the data frame is never touched and the supplied calculator
is never applied. -/
theorem webServiceCorrection_always_typeError (df : DataFrame)
    (web_service : Row → ℝ) :
    webServiceCorrection_init df web_service
      = Except.error
          (PyError.typeError "__init__ missing required positional argument") :=
  rfl

/-- C10: whenever the chain-validity check fails, the parent is never the raw
`Source` (every `Source` has `wind_speed_based = True`, so `can_chain` accepts
it); the failing parent is always a `Correction`, which carries a
`correction_name`, so the error message `"{L} cannot follow
{source.correction_name}"` is always constructed — the error path never
raises `AttributeError`. -/
theorem chain_error_path_total (L : String) (P : Node) (wsb : Bool)
    (h : can_chain P = false) :
    P.raw = false ∧
    (∃ pn, P.correction_name? = some pn ∧
      correction_init L P wsb
        = Except.error (PyError.exception (L ++ " cannot follow " ++ pn))) ∧
    (∀ m, correction_init L P wsb ≠ Except.error (PyError.attributeError m)) := by
  cases P with
  | sourceNode c =>
    exact absurd h (by simp [can_chain, Node.wind_speed_based])
  | correctionNode s w pn wsc =>
    have hw : w = false := by simpa [can_chain, Node.wind_speed_based] using h
    subst hw
    refine ⟨rfl, ⟨pn, rfl, rfl⟩, ?_⟩
    intro m hcontra
    rw [show correction_init L (Node.correctionNode s false pn wsc) wsb
        = Except.error (PyError.exception (L ++ " cannot follow " ++ pn)) from rfl] at hcontra
    simp at hcontra

theorem chain_error_path_total_witness :
    (Node.correctionNode (Node.sourceNode none) false "WebService" none).raw = false ∧
    correction_init "Density"
      (Node.correctionNode (Node.sourceNode none) false "WebService" none) true
      = Except.error (PyError.exception "Density cannot follow WebService") := by
  obtain ⟨h1, ⟨pn, hpn, herr⟩, -⟩ :=
    chain_error_path_total "Density"
      (Node.correctionNode (Node.sourceNode none) false "WebService" none) true rfl
  refine ⟨h1, ?_⟩
  have hpn2 : pn = "WebService" :=
    (by simpa [Node.correction_name?] using hpn : "WebService" = pn).symm
  subst hpn2
  exact herr

theorem cube_root_bounds :
    (9.34 : ℝ) < 10 * ((1 : ℝ) / 1.225) ^ ((1 : ℝ) / 3) ∧
    10 * ((1 : ℝ) / 1.225) ^ ((1 : ℝ) / 3) < 9.35 := by
  have hynn : (0 : ℝ) ≤ ((1 : ℝ) / 1.225) ^ ((1 : ℝ) / 3) :=
    Real.rpow_nonneg (by norm_num) _
  have hy3 : (((1 : ℝ) / 1.225) ^ ((1 : ℝ) / 3)) ^ (3 : ℕ) = 1 / 1.225 := by
    rw [← Real.rpow_natCast (((1 : ℝ) / 1.225) ^ ((1 : ℝ) / 3)) 3,
      ← Real.rpow_mul (by norm_num)]
    norm_num
  constructor
  · by_contra h
    push_neg at h
    have hyle : ((1 : ℝ) / 1.225) ^ ((1 : ℝ) / 3) ≤ 0.934 := by linarith
    have hcube : (((1 : ℝ) / 1.225) ^ ((1 : ℝ) / 3)) ^ (3 : ℕ) ≤ (0.934 : ℝ) ^ (3 : ℕ) :=
      pow_le_pow_left₀ hynn hyle 3
    rw [hy3] at hcube
    norm_num at hcube
  · by_contra h
    push_neg at h
    have hyge : (0.935 : ℝ) ≤ ((1 : ℝ) / 1.225) ^ ((1 : ℝ) / 3) := by linarith
    have hcube : (0.935 : ℝ) ^ (3 : ℕ) ≤ (((1 : ℝ) / 1.225) ^ ((1 : ℝ) / 3)) ^ (3 : ℕ) :=
      pow_le_pow_left₀ (by norm_num) hyge 3
    rw [hy3] at hcube
    norm_num at hcube

/-- C6 (counterexample): at source wind speed 10.0, row density 1.0 and
reference density 1.225, the density-corrected wind speed
`10.0 * (1.0/1.225)^(1/3)` lies strictly between 9.34 and 9.35 (it is
≈ 9.346), so it is NOT within floating tolerance of the spec's quoted value
9.428 — the difference exceeds 0.01. -/
theorem density_9_428_counterexample :
    ¬ |DensityCorrectionCalculator.densityCorrectedHubWindSpeed
        ⟨1.225, "WS", "Hub Density"⟩
        (fun c => if c = "WS" then (10 : ℝ) else 1) - 9.428| < 1 / 100 := by
  intro habs
  have hval : DensityCorrectionCalculator.densityCorrectedHubWindSpeed
      ⟨1.225, "WS", "Hub Density"⟩ (fun c => if c = "WS" then (10 : ℝ) else 1)
      = 10 * ((1 : ℝ) / 1.225) ^ ((1 : ℝ) / 3) := by
    simp [DensityCorrectionCalculator.densityCorrectedHubWindSpeed]
  rw [hval] at habs
  have h2 := (abs_sub_lt_iff.mp habs).2
  have h3 := cube_root_bounds.2
  linarith

/-- C6 (amended): for every row, `DensityEquivalentWindSpeed` writes a new
wind-speed value equal to
`source_speed * (row_density / reference_density) ^ (1/3)`; at source wind
speed 10.0, row density 1.0 and reference density 1.225 the corrected speed
equals `10.0 * (1.0/1.225)^(1/3) ≈ 9.346` (strictly between 9.34 and 9.35,
not ≈ 9.428 as the spec quotes). -/
theorem density_formula_amended :
    (∀ (c : DensityCorrectionCalculator) (row : Row),
      c.densityCorrectedHubWindSpeed row
        = row c.windSpeedColumn
          * (row c.densityColumn / c.referenceDensity) ^ ((1 : ℝ) / 3)) ∧
    (∀ (df : DataFrame) (n : Node) (df2 : DataFrame) (pcol : Option String),
      densityEquivalentWindSpeed_init df (Node.sourceNode (some "WS")) 1.225
          "Hub Density" none = Except.ok (n, df2, pcol) →
      df2.column "Density Wind Speed"
        = df.map (fun r => r "WS" * (r "Hub Density" / 1.225) ^ ((1 : ℝ) / 3))) ∧
    (9.34 < DensityCorrectionCalculator.densityCorrectedHubWindSpeed
        ⟨1.225, "WS", "Hub Density"⟩ (fun c => if c = "WS" then (10 : ℝ) else 1) ∧
     DensityCorrectionCalculator.densityCorrectedHubWindSpeed
        ⟨1.225, "WS", "Hub Density"⟩ (fun c => if c = "WS" then (10 : ℝ) else 1)
       < 9.35) := by
  have hval : DensityCorrectionCalculator.densityCorrectedHubWindSpeed
      ⟨1.225, "WS", "Hub Density"⟩ (fun c => if c = "WS" then (10 : ℝ) else 1)
      = 10 * ((1 : ℝ) / 1.225) ^ ((1 : ℝ) / 3) := by
    simp [DensityCorrectionCalculator.densityCorrectedHubWindSpeed]
  refine ⟨fun c row => rfl, ?_, by rw [hval]; exact cube_root_bounds.1,
    by rw [hval]; exact cube_root_bounds.2⟩
  intro df n df2 pcol h
  rw [show densityEquivalentWindSpeed_init df (Node.sourceNode (some "WS")) 1.225
      "Hub Density" none
      = Except.ok (Node.correctionNode (Node.sourceNode (some "WS")) true "Density"
          (some "Density Wind Speed"),
        df.addColumn "Density Wind Speed"
          (DensityCorrectionCalculator.densityCorrectedHubWindSpeed
            ⟨1.225, "WS", "Hub Density"⟩), none) from rfl] at h
  simp only [Except.ok.injEq, Prod.mk.injEq] at h
  obtain ⟨-, hdf, -⟩ := h
  rw [← hdf, addColumn_column]
  rfl

theorem density_formula_amended_witness :
    DataFrame.column ([] : DataFrame) "Density Wind Speed"
      = List.map
          (fun r => r "WS" * (r "Hub Density" / 1.225) ^ ((1 : ℝ) / 3))
          ([] : DataFrame) :=
  density_formula_amended.2.1 []
    (Node.correctionNode (Node.sourceNode (some "WS")) true "Density"
      (some "Density Wind Speed")) [] none rfl

theorem turbulence_init_rated_irrelevant (df : DataFrame) (source : Node)
    (tc : String) (f : ℝ → ℝ → ℝ) (r1 r2 : ℝ) :
    turbulenceCorrection_init df source tc ⟨f, r1⟩
      = turbulenceCorrection_init df source tc ⟨f, r2⟩ := by
  simp only [turbulenceCorrection_init, powerBasedCorrection_init]
  cases hcorr : correction_init "Turbulence" source false with
  | error e => rfl
  | ok n =>
    cases hwsc : source.wind_speed_column? with
    | none => rfl
    | some wsc => rfl

/-- C7 (counterexample): no pair of rated-power values makes any difference —
for every power function, every two rated powers, every data frame, parent
and turbulence column, the results of `TurbulenceCorrection` construction
(including every written power value) coincide, because
`TurbulencePowerCalculator.power` never reads its `ratedPower` field. -/
theorem turbulence_rated_power_counterexample :
    ¬ ∃ (f : ℝ → ℝ → ℝ) (r1 r2 : ℝ) (df : DataFrame) (source : Node) (tc : String),
      turbulenceCorrection_init df source tc ⟨f, r1⟩
        ≠ turbulenceCorrection_init df source tc ⟨f, r2⟩ := by
  rintro ⟨f, r1, r2, df, source, tc, hne⟩
  exact hne (turbulence_init_rated_irrelevant df source tc f r1 r2)

/-- C7 (amended): `TurbulenceCorrection` computes its power column row-wise
from the turbulence-aware curve applied to the parent's wind-speed column and
the turbulence-intensity column; the curve's rated power is passed into the
calculator at construction (line 237) but is never used by the per-row power
computation, so the written power values are identical for all rated-power
values with all other inputs held equal. -/
theorem turbulence_power_row_wise (df : DataFrame) (source : Node)
    (wsc tc : String) (curve : TurbulencePowerCurve) :
    (∀ (c : TurbulencePowerCalculator) (row : Row),
      c.power row = c.powerCurve.power (row c.windSpeedColumn) (row c.turbulenceColumn)) ∧
    (source.wind_speed_column? = some wsc →
      ∀ n df2, turbulenceCorrection_init df source tc curve = Except.ok (n, df2) →
        df2.column (calculate_name source "Turbulence" ++ " Power")
          = df.map (fun r => curve.power (r wsc) (r tc))) ∧
    (∀ (f : ℝ → ℝ → ℝ) (r1 r2 : ℝ),
      turbulenceCorrection_init df source tc ⟨f, r1⟩
        = turbulenceCorrection_init df source tc ⟨f, r2⟩) := by
  refine ⟨fun c row => rfl, ?_,
    fun f r1 r2 => turbulence_init_rated_irrelevant df source tc f r1 r2⟩
  intro hwsc n df2 hok
  simp only [turbulenceCorrection_init, powerBasedCorrection_init] at hok
  cases hcorr : correction_init "Turbulence" source false with
  | error e =>
    rw [hcorr] at hok
    exact absurd hok (by simp)
  | ok n0 =>
    rw [hcorr, hwsc] at hok
    simp only [Except.ok.injEq, Prod.mk.injEq] at hok
    obtain ⟨-, hdf⟩ := hok
    rw [← hdf]
    unfold powerBasedCorrection_finalise
    rw [addColumn_column]
    rfl

theorem turbulence_power_row_wise_witness :
    DataFrame.column ([] : DataFrame)
        (calculate_name (Node.sourceNode (some "WS")) "Turbulence" ++ " Power")
      = List.map
          (fun r => (⟨fun _ _ => 0, 0⟩ : TurbulencePowerCurve).power (r "WS") (r "TI"))
          ([] : DataFrame) :=
  (turbulence_power_row_wise [] (Node.sourceNode (some "WS")) "WS" "TI"
    ⟨fun _ _ => 0, 0⟩).2.1 rfl
    (Node.correctionNode (Node.sourceNode (some "WS")) false "Turbulence" none) [] rfl

/-- C8: `Source.finalise` and `WindSpeedBasedCorrection.finalise` with a power
curve create a power column named `"<wind_speed_column> Power"` respectively
`"<composite_name> Power"`, computed by applying the power curve to each row's
wind speed, and set `power_column` to that name; with no power curve, the data
frame is unchanged and `power_column` is `None`. -/
theorem finalise_power_column (wsc name : String) (df : DataFrame)
    (curve : PowerCurve) :
    source_finalise wsc df (some curve)
        = (df.addColumn (wsc ++ " Power") (fun r => curve.power (r wsc)),
           some (wsc ++ " Power")) ∧
    (source_finalise wsc df (some curve)).1.column (wsc ++ " Power")
        = df.map (fun r => curve.power (r wsc)) ∧
    source_finalise wsc df none = (df, none) ∧
    windSpeedBasedCorrection_finalise name wsc df (some curve)
        = (df.addColumn (name ++ " Power") (fun r => curve.power (r wsc)),
           some (name ++ " Power")) ∧
    (windSpeedBasedCorrection_finalise name wsc df (some curve)).1.column
        (name ++ " Power")
        = df.map (fun r => curve.power (r wsc)) ∧
    windSpeedBasedCorrection_finalise name wsc df none = (df, none) := by
  refine ⟨rfl, ?_, rfl, rfl, ?_, rfl⟩
  · rw [show (source_finalise wsc df (some curve)).1
        = df.addColumn (wsc ++ " Power")
            (PowerCalculator.power ⟨curve, wsc⟩) from rfl, addColumn_column]
    rfl
  · rw [show (windSpeedBasedCorrection_finalise name wsc df (some curve)).1
        = df.addColumn (name ++ " Power")
            (PowerCalculator.power ⟨curve, wsc⟩) from rfl, addColumn_column]
    rfl

/-- C9: the `RotorEquivalentWindSpeed` correction label is determined by the
exponent and flags: exponent 3.0 yields a label containing `"REWS"`, exponent
2.0 one containing `"RAWS"`, any other exponent `v` one containing
`"REWS-Exponent=<v>"` (e.g. 2.5 yields `"REWS-Exponent=2.5"`); the veer flag
adds `"+Veer"` and the upflow flag adds `"+Upflow"` to the label. -/
theorem rews_label_spec (e : ℚ) (veer upflow : Bool) :
    (e = 3 → strHasSub "REWS" (rews_label e veer upflow) = true) ∧
    (e = 2 → strHasSub "RAWS" (rews_label e veer upflow) = true) ∧
    (e ≠ 3 → e ≠ 2 →
      strHasSub ("REWS-Exponent=" ++ pyFloatStr e) (rews_label e veer upflow) = true) ∧
    strHasSub "REWS-Exponent=2.5" (rews_label (mkRat 5 2) veer upflow) = true ∧
    (veer = true → strHasSub "+Veer" (rews_label e veer upflow) = true) ∧
    (upflow = true → strHasSub "+Upflow" (rews_label e veer upflow) = true) := by
  refine ⟨?_, ?_, ?_, ?_, ?_, ?_⟩
  · intro he
    subst he
    have h1 : rews_label 3 veer upflow
        = "REWS" ++ (" (" ++ rews_type_string veer upflow ++ ")") := by
      rw [rews_label, rews_exponent_type, if_pos rfl]
      simp only [String.append_assoc]
    rw [h1]
    exact strHasSub_pre_append _ _
  · intro he
    subst he
    have h1 : rews_label 2 veer upflow
        = "RAWS" ++ (" (" ++ rews_type_string veer upflow ++ ")") := by
      rw [rews_label, rews_exponent_type, if_neg (by norm_num), if_pos rfl]
      simp only [String.append_assoc]
    rw [h1]
    exact strHasSub_pre_append _ _
  · intro h3 h2
    have h1 : rews_label e veer upflow
        = ("REWS-Exponent=" ++ pyFloatStr e)
            ++ (" (" ++ rews_type_string veer upflow ++ ")") := by
      rw [rews_label, rews_exponent_type, if_neg h3, if_neg h2]
      simp only [String.append_assoc]
    rw [h1]
    exact strHasSub_pre_append _ _
  · have hexp : rews_exponent_type (mkRat 5 2) = "REWS-Exponent=2.5" := by decide
    have h1 : rews_label (mkRat 5 2) veer upflow
        = "REWS-Exponent=2.5" ++ (" (" ++ rews_type_string veer upflow ++ ")") := by
      rw [rews_label, hexp]
      simp only [String.append_assoc]
    rw [h1]
    exact strHasSub_pre_append _ _
  · intro hv
    subst hv
    have h1 : rews_label e true upflow
        = ((rews_exponent_type e ++ " (" ++ "Speed") ++ "+Veer")
            ++ ((if upflow then "+Upflow" else "") ++ ")") := by
      rw [rews_label, rews_type_string, if_pos rfl]
      simp only [String.append_assoc]
    rw [h1]
    exact strHasSub_mid _ _ _
  · intro hu
    subst hu
    have h1 : rews_label e veer true
        = ((rews_exponent_type e ++ " ("
              ++ ("Speed" ++ (if veer then "+Veer" else ""))) ++ "+Upflow") ++ ")" := by
      rw [rews_label, rews_type_string, if_pos rfl]
      simp only [String.append_assoc]
    rw [h1]
    exact strHasSub_mid _ _ _

theorem rews_label_spec_witness :
    strHasSub "REWS" (rews_label 3 true false) = true ∧
    strHasSub "+Veer" (rews_label 3 true false) = true ∧
    strHasSub "REWS-Exponent=2.5" (rews_label (mkRat 5 2) false true) = true ∧
    strHasSub "+Upflow" (rews_label (mkRat 5 2) false true) = true :=
  ⟨(rews_label_spec 3 true false).1 rfl,
   (rews_label_spec 3 true false).2.2.2.2.1 rfl,
   (rews_label_spec (mkRat 5 2) false true).2.2.2.1,
   (rews_label_spec (mkRat 5 2) false true).2.2.2.2.2 rfl⟩
